import Mathlib

/-!
Shallow embedding of `StandardAtmosphere.py`: a table-driven piecewise-linear
interpolation engine over a fixed standard-atmosphere reference table.
Python floats are modelled by `ℚ`; a Python runtime error (IndexError from the
scan running past the end of the sequence or from an out-of-range subscript,
ZeroDivisionError from a degenerate interval) is modelled by `none`; the
out-of-bounds diagnostic print of each accessor is modelled as a `Bool` flag
returned alongside the value.
-/

namespace StandardAtmosphere

/-- Altitude breakpoints of `standard_atmosphere_lookup['altitude']`, meters. -/
def altitude_data : List ℚ :=
  [-1000, 0, 1000, 2000, 3000, 4000, 5000, 6000, 7000, 8000,
   9000, 10000, 15000, 20000, 25000, 30000, 40000, 50000, 60000, 70000,
   80000]

/-- Table `standard_atmosphere_lookup['temperature']`, °C. -/
def temperature_data : List ℚ :=
  [21.5, 15, 8.5, 2, -4.49, -10.98, -17.47, -23.96, -30.45,
   -36.94, -43.42, -49.9, -56.5, -56.5, -51.6, -46.64, -22.8, -2.5, -26.13,
   -53.57, -74.51]

/-- Table `standard_atmosphere_lookup['pressure']`, units of 10^4 N/m^2. -/
def pressure_data : List ℚ :=
  [11.39, 10.13, 8.988, 7.95, 7.012, 6.166, 5.405, 4.722, 4.111,
   3.565, 3.08, 2.65, 1.211, 0.5529, 0.2549, 0.1197, 0.0287, 0.007978,
   0.002196, 0.00052, 0.00011]

/-- Table `standard_atmosphere_lookup['density']`, kg/m^3. -/
def density_data : List ℚ :=
  [1.347, 1.225, 1.112, 1.007, 0.9093, 0.8194, 0.7364, 0.6601,
   0.59, 0.5258, 0.4671, 0.4135, 0.1948, 0.08891, 0.04008, 0.01841,
   0.003996, 0.001027, 0.0003097, 0.00008283, 0.00001846]

/-- Table `standard_atmosphere_lookup['dynamic_viscosity']`, 10^-5 N s/m^2. -/
def dynamic_viscosity_data : List ℚ :=
  [1.821, 1.789, 1.758, 1.726, 1.694, 1.661, 1.628,
   1.595, 1.561, 1.527, 1.493, 1.458, 1.422, 1.422, 1.448, 1.475, 1.601,
   1.704, 1.584, 1.438, 1.321]

/-- The `while data[i] < value: i += 1` loop of `get_index`, scanning the
suffix of the data starting at absolute index `i`; `none` models the
IndexError raised when the loop runs past the end of the sequence. -/
def scanAux (value : ℚ) : List ℚ → ℕ → Option ℕ
  | [], _ => none
  | d :: rest, i => if d < value then scanAux value rest (i + 1) else some i

/-- `get_index(value, data)`: `none` models a runtime error (empty data or the
scan running out of range), `some none` models Python's `return None`
("unbounded above" sentinel), `some (some i)` models `return i`. -/
def get_index (value : ℚ) (data : List ℚ) : Option (Option ℕ) :=
  if data.length = 0 then none
  else if data.getD (data.length - 1) 0 < value then some none
  else if value < data.getD 0 0 then some (some 0)
  else (scanAux value (data.drop 1) 1).map some

/-- `linear_interpolate(target_x, x_data, y_data)`: `none` models a runtime
error (propagated from `get_index`, an out-of-range subscript, or a zero
denominator in the slope). -/
def linear_interpolate (target_x : ℚ) (x_data y_data : List ℚ) : Option ℚ :=
  match get_index target_x x_data with
  | none => none
  | some gi =>
    let index0 := match gi with
      | none => x_data.length - 1
      | some i => i
    let index := if index0 = 0 then 1 else index0
    match x_data[index]?, x_data[index - 1]?, y_data[index]?, y_data[index - 1]? with
    | some x_n1, some x_n, some y_n1, some y_n =>
      if x_n1 - x_n = 0 then none
      else some (y_n + (y_n1 - y_n) / (x_n1 - x_n) * (target_x - x_n))
    | _, _, _, _ => none

/-- The out-of-bounds check shared by the four accessors:
`altitude < data[0] or altitude > data[-1]`; `true` means the accessor prints
its advisory warning. -/
def bounds_warning (altitude : ℚ) : Bool :=
  decide (altitude < altitude_data.getD 0 0) ||
    decide (altitude_data.getD (altitude_data.length - 1) 0 < altitude)

/-- `get_pressure(altitude)`: interpolate the pressure column, clamp below at
zero, convert to Pa by multiplying with 10^4.  First component: whether the
out-of-bounds warning was printed. -/
def get_pressure (altitude : ℚ) : Bool × Option ℚ :=
  let warn := bounds_warning altitude
  match linear_interpolate altitude altitude_data pressure_data with
  | none => (warn, none)
  | some p => (warn, some ((if p < 0 then 0 else p) * 10 ^ 4))

/-- `get_temperature(altitude)`: interpolate the temperature column; no
clamping, no scaling. -/
def get_temperature (altitude : ℚ) : Bool × Option ℚ :=
  let warn := bounds_warning altitude
  match linear_interpolate altitude altitude_data temperature_data with
  | none => (warn, none)
  | some t => (warn, some t)

/-- `get_density(altitude)`: interpolate the density column, clamp below at
zero. -/
def get_density (altitude : ℚ) : Bool × Option ℚ :=
  let warn := bounds_warning altitude
  match linear_interpolate altitude altitude_data density_data with
  | none => (warn, none)
  | some d => (warn, some (if d < 0 then 0 else d))

/-- `get_dynamic_viscocity(altitude)` (sic): interpolate the viscosity column,
clamp below at zero, convert by multiplying with 10^-5. -/
def get_dynamic_viscocity (altitude : ℚ) : Bool × Option ℚ :=
  let warn := bounds_warning altitude
  match linear_interpolate altitude altitude_data dynamic_viscosity_data with
  | none => (warn, none)
  | some v => (warn, some ((if v < 0 then 0 else v) / 10 ^ 5))

/-- The result dictionary assembled by `get_standard_atmosphere`. -/
structure AtmosphereData where
  pressure : ℚ
  temperature : ℚ
  dynamic_viscosity : ℚ
  density : ℚ
  altitude : ℚ
deriving DecidableEq, Repr

/-- `get_standard_atmosphere(altitude)`: calls the four accessors in source
order and assembles the dictionary, echoing the input altitude; `none` if any
accessor raises. -/
def get_standard_atmosphere (altitude : ℚ) : Option AtmosphereData :=
  match (get_pressure altitude).2, (get_temperature altitude).2,
      (get_dynamic_viscocity altitude).2, (get_density altitude).2 with
  | some p, some t, some v, some d =>
    some { pressure := p, temperature := t, dynamic_viscosity := v,
           density := d, altitude := altitude }
  | _, _, _, _ => none

/-- Reading a dropped suffix at offset `m` is reading the original at `n + m`. -/
lemma getD_drop (l : List ℚ) (n m : ℕ) : (l.drop n).getD m 0 = l.getD (n + m) 0 := by
  simp [List.getD_eq_getD_get?, List.get?_eq_getElem?, List.getElem?_drop]

/-- In-range `getElem?` agrees with `getD`. -/
lemma getElem?_eq_some_getD (l : List ℚ) (i : ℕ) (h : i < l.length) :
    l[i]? = some (l.getD i 0) := by
  rw [List.getElem?_eq_getElem h, List.getD_eq_getElem _ _ h]

/-- Strictly increasing lists are strictly increasing under `getD`. -/
lemma sorted_getD_lt {l : List ℚ} (hs : l.Sorted (· < ·)) {i j : ℕ}
    (hij : i < j) (hj : j < l.length) : l.getD i 0 < l.getD j 0 := by
  rw [List.getD_eq_get _ _ (lt_trans hij hj), List.getD_eq_get _ _ hj]
  exact hs.rel_get_of_lt hij

/-- Weak form of `sorted_getD_lt`. -/
lemma sorted_getD_le {l : List ℚ} (hs : l.Sorted (· < ·)) {i j : ℕ}
    (hij : i ≤ j) (hj : j < l.length) : l.getD i 0 ≤ l.getD j 0 := by
  rcases eq_or_lt_of_le hij with rfl | h
  · exact le_refl _
  · exact le_of_lt (sorted_getD_lt hs h hj)

/-- Strictly decreasing lists are strictly decreasing under `getD`. -/
lemma sorted_gt_getD_lt {l : List ℚ} (hs : l.Sorted (· > ·)) {i j : ℕ}
    (hij : i < j) (hj : j < l.length) : l.getD j 0 < l.getD i 0 := by
  rw [List.getD_eq_get _ _ (lt_trans hij hj), List.getD_eq_get _ _ hj]
  exact hs.rel_get_of_lt hij

/-- Weak form of `sorted_gt_getD_lt`. -/
lemma sorted_gt_getD_le {l : List ℚ} (hs : l.Sorted (· > ·)) {i j : ℕ}
    (hij : i ≤ j) (hj : j < l.length) : l.getD j 0 ≤ l.getD i 0 := by
  rcases eq_or_lt_of_le hij with rfl | h
  · exact le_refl _
  · exact le_of_lt (sorted_gt_getD_lt hs h hj)

/-- The scan loop, started anywhere, stops at the first element that is not
below the query, provided such an element exists in the remaining suffix. -/
lemma scanAux_spec (value : ℚ) :
    ∀ (l : List ℚ) (i : ℕ), (∃ k, k < l.length ∧ value ≤ l.getD k 0) →
      ∃ k, k < l.length ∧ value ≤ l.getD k 0 ∧
        (∀ m, m < k → l.getD m 0 < value) ∧ scanAux value l i = some (i + k)
  | [], _, h => by
    obtain ⟨k, hk, _⟩ := h
    simp at hk
  | d :: rest, i, h => by
    by_cases hd : d < value
    · obtain ⟨k, hk, hvk⟩ := h
      match k, hk, hvk with
      | 0, _, hv0 =>
        exact absurd hd (not_lt.mpr (by simpa using hv0))
      | k' + 1, hk', hv' =>
        obtain ⟨k0, hk0, hv0, hmin, hscan⟩ :=
          scanAux_spec value rest (i + 1)
            ⟨k', by simpa using hk', by simpa using hv'⟩
        refine ⟨k0 + 1, by simpa using hk0, by simpa using hv0, ?_, ?_⟩
        · intro m hm
          cases m with
          | zero => simpa using hd
          | succ m' => simpa using hmin m' (by omega)
        · rw [show scanAux value (d :: rest) i = scanAux value rest (i + 1) by
            simp [scanAux, hd], hscan]
          congr 1
          omega
    · refine ⟨0, by simp, by simpa using not_lt.mp hd, by omega, ?_⟩
      simp [scanAux, hd]

/-- `get_index` when the query is strictly above the last breakpoint. -/
lemma get_index_above {value : ℚ} {data : List ℚ} (h2 : 2 ≤ data.length)
    (h : data.getD (data.length - 1) 0 < value) : get_index value data = some none := by
  unfold get_index
  rw [if_neg (by omega), if_pos h]

/-- `get_index` when the query is strictly below the first breakpoint. -/
lemma get_index_below {value : ℚ} {data : List ℚ} (h2 : 2 ≤ data.length)
    (hs : data.Sorted (· < ·)) (h : value < data.getD 0 0) :
    get_index value data = some (some 0) := by
  have hfl : data.getD 0 0 < data.getD (data.length - 1) 0 :=
    sorted_getD_lt hs (by omega) (by omega)
  unfold get_index
  rw [if_neg (by omega), if_neg (not_lt.mpr (le_of_lt (lt_trans h hfl))), if_pos h]

/-- `get_index` on an in-range query: the scan returns the least index `i ≥ 1`
whose breakpoint is not below the query. -/
lemma get_index_mid {value : ℚ} {data : List ℚ} (h2 : 2 ≤ data.length)
    (_hs : data.Sorted (· < ·)) (hge : data.getD 0 0 ≤ value)
    (hle : value ≤ data.getD (data.length - 1) 0) :
    ∃ i, get_index value data = some (some i) ∧ 1 ≤ i ∧ i < data.length ∧
      value ≤ data.getD i 0 ∧ ∀ m, 1 ≤ m → m < i → data.getD m 0 < value := by
  have hdl : (data.drop 1).length = data.length - 1 := by simp
  obtain ⟨k, hk, hv, hmin, hscan⟩ := scanAux_spec value (data.drop 1) 1
    ⟨data.length - 2, by omega, by
      rw [getD_drop, show 1 + (data.length - 2) = data.length - 1 by omega]
      exact hle⟩
  rw [hdl] at hk
  rw [getD_drop] at hv
  refine ⟨1 + k, ?_, by omega, by omega, hv, ?_⟩
  · unfold get_index
    rw [if_neg (by omega), if_neg (not_lt.mpr hle), if_neg (not_lt.mpr hge), hscan]
    rfl
  · intro m h1m hmk
    have := hmin (m - 1) (by omega)
    rw [getD_drop, show 1 + (m - 1) = m by omega] at this
    exact this

/-- Bracketing index as the spec words it: the locator's result, with the
"unbounded-above" sentinel replaced by `length - 1` and index 0 replaced
by 1. -/
def adjIndex (t : ℚ) (x_data : List ℚ) : Option ℕ :=
  (get_index t x_data).map fun gi =>
    let i0 := gi.getD (x_data.length - 1)
    if i0 = 0 then 1 else i0

/-- Bracketing-interval linear formula as the spec words it:
`y0 + (y1 - y0) / (x1 - x0) * (t - x0)` with `(x0, y0)` and `(x1, y1)` taken
at positions `i - 1` and `i`. -/
def segLine (x_data y_data : List ℚ) (i : ℕ) (t : ℚ) : ℚ :=
  y_data.getD (i - 1) 0 +
    (y_data.getD i 0 - y_data.getD (i - 1) 0) /
      (x_data.getD i 0 - x_data.getD (i - 1) 0) * (t - x_data.getD (i - 1) 0)

/-- Characterization of the adjusted bracketing index: it always exists, lies
in `[1, length)`, bounds the query above when the query is within the table,
bounds it strictly below when at least 2, and is the last interval above the
table. -/
lemma adjIndex_spec {x : List ℚ} (h2 : 2 ≤ x.length) (hs : x.Sorted (· < ·))
    (t : ℚ) :
    ∃ i, adjIndex t x = some i ∧ 1 ≤ i ∧ i < x.length ∧
      (t ≤ x.getD (x.length - 1) 0 → t ≤ x.getD i 0) ∧
      (2 ≤ i → x.getD (i - 1) 0 < t) ∧
      (x.getD (x.length - 1) 0 < t → i = x.length - 1) := by
  rcases lt_or_le (x.getD (x.length - 1) 0) t with hab | hle
  · refine ⟨x.length - 1, ?_, by omega, by omega, ?_, ?_, fun _ => rfl⟩
    · unfold adjIndex
      rw [get_index_above h2 hab]
      show some (if x.length - 1 = 0 then 1 else x.length - 1) = some (x.length - 1)
      rw [if_neg (by omega)]
    · intro hcon
      exact absurd hab (not_lt.mpr hcon)
    · intro hxi
      have hstep : x.getD (x.length - 1 - 1) 0 < x.getD (x.length - 1) 0 :=
        sorted_getD_lt hs (by omega) (by omega)
      linarith
  · rcases lt_or_le t (x.getD 0 0) with hb | hge
    · refine ⟨1, ?_, le_refl 1, by omega, fun _ => ?_, fun hcon => absurd hcon (by omega), fun hcon => absurd hcon (not_lt.mpr hle)⟩
      · unfold adjIndex
        rw [get_index_below h2 hs hb]
        rfl
      · have h01 : x.getD 0 0 < x.getD 1 0 := sorted_getD_lt hs (by omega) (by omega)
        exact le_of_lt (lt_trans hb h01)
    · obtain ⟨i, hgi, h1i, hilen, hvi, hmin⟩ := get_index_mid h2 hs hge hle
      refine ⟨i, ?_, h1i, hilen, fun _ => hvi, ?_, fun hcon => absurd hcon (not_lt.mpr hle)⟩
      · unfold adjIndex
        rw [hgi]
        show some (if i = 0 then 1 else i) = some i
        rw [if_neg (by omega)]
      · intro h2i
        exact hmin (i - 1) (by omega) (by omega)

/-- `linear_interpolate` succeeds and returns the bracketing-interval linear
formula at the adjusted index. -/
lemma linear_interpolate_of_adjIndex {x y : List ℚ} (hs : x.Sorted (· < ·))
    (hy : y.length = x.length) (t : ℚ) {i : ℕ} (hadj : adjIndex t x = some i)
    (h1i : 1 ≤ i) (hilen : i < x.length) :
    linear_interpolate t x y = some (segLine x y i t) := by
  have hden : x.getD i 0 - x.getD (i - 1) 0 ≠ 0 := by
    have := sorted_getD_lt hs (show i - 1 < i by omega) hilen
    intro hc
    rw [sub_eq_zero] at hc
    exact absurd hc (ne_of_gt this)
  unfold adjIndex at hadj
  cases hgi : get_index t x with
  | none =>
    rw [hgi] at hadj
    simp at hadj
  | some gi =>
    rw [hgi] at hadj
    simp only [Option.map_some', Option.some_inj] at hadj
    unfold linear_interpolate
    rw [hgi]
    have him1 : i - 1 < x.length := by omega
    cases gi with
    | none =>
      simp only [Option.getD_none] at hadj
      dsimp only
      rw [hadj, getElem?_eq_some_getD x i hilen, getElem?_eq_some_getD x (i - 1) him1,
        getElem?_eq_some_getD y i (by omega), getElem?_eq_some_getD y (i - 1) (by omega)]
      dsimp only
      rw [if_neg hden]
      rfl
    | some j =>
      simp only [Option.getD_some] at hadj
      dsimp only
      rw [hadj, getElem?_eq_some_getD x i hilen, getElem?_eq_some_getD x (i - 1) him1,
        getElem?_eq_some_getD y i (by omega), getElem?_eq_some_getD y (i - 1) (by omega)]
      dsimp only
      rw [if_neg hden]
      rfl

/-- The bracketing segment's value at its left endpoint is the left y-value. -/
lemma segLine_left (x y : List ℚ) (i : ℕ) :
    segLine x y i (x.getD (i - 1) 0) = y.getD (i - 1) 0 := by
  unfold segLine
  ring

/-- The bracketing segment's value at its right endpoint is the right
y-value. -/
lemma segLine_right {x : List ℚ} (y : List ℚ) {i : ℕ}
    (hden : x.getD i 0 - x.getD (i - 1) 0 ≠ 0) :
    segLine x y i (x.getD i 0) = y.getD i 0 := by
  unfold segLine
  rw [div_mul_cancel₀ _ hden]
  ring

/-- With a strictly increasing x-column and strictly decreasing y-column,
every bracketing segment's line is antitone. -/
lemma segLine_antitone {x y : List ℚ} (hs : x.Sorted (· < ·))
    (hy : y.length = x.length) (hys : y.Sorted (· > ·)) {i : ℕ} (h1i : 1 ≤ i)
    (hilen : i < x.length) {t1 t2 : ℚ} (h : t1 ≤ t2) :
    segLine x y i t2 ≤ segLine x y i t1 := by
  have hx : x.getD (i - 1) 0 < x.getD i 0 := sorted_getD_lt hs (by omega) hilen
  have hyy : y.getD i 0 < y.getD (i - 1) 0 := sorted_gt_getD_lt hys (by omega) (by omega)
  have hslope : (y.getD i 0 - y.getD (i - 1) 0) /
      (x.getD i 0 - x.getD (i - 1) 0) ≤ 0 :=
    div_nonpos_of_nonpos_of_nonneg (by linarith) (by linarith)
  unfold segLine
  have key := mul_le_mul_of_nonpos_left
    (show t1 - x.getD (i - 1) 0 ≤ t2 - x.getD (i - 1) 0 by linarith) hslope
  linarith

/-- The adjusted bracketing index is monotone in the query. -/
lemma adjIndex_mono {x : List ℚ} (h2 : 2 ≤ x.length) (hs : x.Sorted (· < ·))
    {t1 t2 : ℚ} (h12 : t1 ≤ t2) {k1 k2 : ℕ}
    (hk1 : adjIndex t1 x = some k1) (hk2 : adjIndex t2 x = some k2) :
    k1 ≤ k2 := by
  obtain ⟨i1, hi1, h11, hl1, hub1, hlb1, htop1⟩ := adjIndex_spec h2 hs t1
  obtain ⟨i2, hi2, h12', hl2, hub2, hlb2, htop2⟩ := adjIndex_spec h2 hs t2
  rw [hi1] at hk1
  rw [hi2] at hk2
  obtain rfl : i1 = k1 := Option.some_inj.mp hk1
  obtain rfl : i2 = k2 := Option.some_inj.mp hk2
  by_contra hc
  push_neg at hc
  have h2k1 : 2 ≤ i1 := by omega
  have hx1 : x.getD (i1 - 1) 0 < t1 := hlb1 h2k1
  rcases le_or_lt t2 (x.getD (x.length - 1) 0) with hle | hgt
  · have ht2 : t2 ≤ x.getD i2 0 := hub2 hle
    have hmono : x.getD i2 0 ≤ x.getD (i1 - 1) 0 := sorted_getD_le hs (by omega) (by omega)
    linarith
  · have := htop2 hgt
    omega

/-- Piecewise-linear interpolation against a strictly decreasing y-column is
antitone in the query, over the whole real line. -/
lemma interp_antitone {x y : List ℚ} (h2 : 2 ≤ x.length) (hs : x.Sorted (· < ·))
    (hy : y.length = x.length) (hys : y.Sorted (· > ·)) {t1 t2 : ℚ} (h12 : t1 ≤ t2)
    {v1 v2 : ℚ} (h1 : linear_interpolate t1 x y = some v1)
    (h2' : linear_interpolate t2 x y = some v2) : v2 ≤ v1 := by
  obtain ⟨k1, ha1, h11, hl1, hub1, hlb1, htop1⟩ := adjIndex_spec h2 hs t1
  obtain ⟨k2, ha2, h12', hl2, hub2, hlb2, htop2⟩ := adjIndex_spec h2 hs t2
  have e1 := linear_interpolate_of_adjIndex hs hy t1 ha1 h11 hl1
  have e2 := linear_interpolate_of_adjIndex hs hy t2 ha2 h12' hl2
  rw [h1] at e1
  rw [h2'] at e2
  obtain rfl : v1 = segLine x y k1 t1 := Option.some_inj.mp e1
  obtain rfl : v2 = segLine x y k2 t2 := Option.some_inj.mp e2
  have hk12 : k1 ≤ k2 := adjIndex_mono h2 hs h12 ha1 ha2
  rcases eq_or_lt_of_le hk12 with rfl | hlt
  · exact segLine_antitone hs hy hys h11 hl1 h12
  · have ht1ub : t1 ≤ x.getD k1 0 := by
      rcases le_or_lt t1 (x.getD (x.length - 1) 0) with hle | hgt
      · exact hub1 hle
      · have := htop1 hgt
        omega
    have ht2lb : x.getD (k2 - 1) 0 < t2 := hlb2 (by omega)
    have hden : x.getD k1 0 - x.getD (k1 - 1) 0 ≠ 0 := by
      have := sorted_getD_lt hs (show k1 - 1 < k1 by omega) hl1
      intro hcon
      rw [sub_eq_zero] at hcon
      exact absurd hcon (ne_of_gt this)
    have c1 : segLine x y k2 t2 ≤ y.getD (k2 - 1) 0 := by
      have := segLine_antitone hs hy hys (show 1 ≤ k2 by omega) hl2
        (le_of_lt ht2lb)
      rwa [segLine_left] at this
    have c2 : y.getD (k2 - 1) 0 ≤ y.getD k1 0 :=
      sorted_gt_getD_le hys (by omega) (by omega)
    have c3 : y.getD k1 0 ≤ segLine x y k1 t1 := by
      have := segLine_antitone hs hy hys h11 hl1 ht1ub
      rwa [segLine_right y hden] at this
    linarith

/-- At a table breakpoint the interpolation returns the stored y-value
exactly. -/
lemma interp_at_breakpoint {x y : List ℚ} (h2 : 2 ≤ x.length)
    (hs : x.Sorted (· < ·)) (hy : y.length = x.length) {k : ℕ} (hk : k < x.length) :
    linear_interpolate (x.getD k 0) x y = some (y.getD k 0) := by
  obtain ⟨i, hadj, h1i, hilen, hub, hlb, htop⟩ := adjIndex_spec h2 hs (x.getD k 0)
  have hle : x.getD k 0 ≤ x.getD (x.length - 1) 0 := sorted_getD_le hs (by omega) (by omega)
  have hden : x.getD i 0 - x.getD (i - 1) 0 ≠ 0 := by
    have := sorted_getD_lt hs (show i - 1 < i by omega) hilen
    intro hcon
    rw [sub_eq_zero] at hcon
    exact absurd hcon (ne_of_gt this)
  have heval := linear_interpolate_of_adjIndex hs hy (x.getD k 0) hadj h1i hilen
  rcases Nat.eq_zero_or_pos k with rfl | hkpos
  · have hi1 : i = 1 := by
      by_contra hne
      have h2i : 2 ≤ i := by omega
      have := hlb h2i
      have hmono : x.getD 0 0 ≤ x.getD (i - 1) 0 := sorted_getD_le hs (by omega) (by omega)
      linarith
    subst hi1
    rw [heval]
    show some (segLine x y 1 (x.getD (1 - 1) 0)) = some (y.getD 0 0)
    rw [segLine_left]
  · have hik : i = k := by
      rcases lt_trichotomy i k with hlt | heq | hgt
      · have hxik : x.getD i 0 < x.getD k 0 := sorted_getD_lt hs hlt hk
        have := hub hle
        linarith
      · exact heq
      · have := hlb (by omega)
        have hmono : x.getD k 0 ≤ x.getD (i - 1) 0 := sorted_getD_le hs (by omega) (by omega)
        linarith
    subst hik
    rw [heval, segLine_right y hden]

/-- The altitude column is strictly increasing. -/
lemma altitude_data_sorted : altitude_data.Sorted (· < ·) := by
  rw [List.Sorted, ← List.chain'_iff_pairwise]
  norm_num [altitude_data, List.chain'_cons]

/-- The altitude column has 21 entries. -/
lemma altitude_data_length : altitude_data.length = 21 := rfl

/-- The pressure column is strictly decreasing. -/
lemma pressure_data_sorted : pressure_data.Sorted (· > ·) := by
  rw [List.Sorted, ← List.chain'_iff_pairwise]
  norm_num [pressure_data, List.chain'_cons]

/-- The density column is strictly decreasing. -/
lemma density_data_sorted : density_data.Sorted (· > ·) := by
  rw [List.Sorted, ← List.chain'_iff_pairwise]
  norm_num [density_data, List.chain'_cons]

/-- Every stored pressure value is nonnegative. -/
lemma pressure_data_nonneg : ∀ q ∈ pressure_data, 0 ≤ q := by
  norm_num [pressure_data]

/-- Every stored density value is nonnegative. -/
lemma density_data_nonneg : ∀ q ∈ density_data, 0 ≤ q := by
  norm_num [density_data]

/-- Every stored viscosity value is nonnegative. -/
lemma dynamic_viscosity_data_nonneg : ∀ q ∈ dynamic_viscosity_data, 0 ≤ q := by
  norm_num [dynamic_viscosity_data]

/-- `getD` of an everywhere-nonnegative list is nonnegative. -/
lemma getD_nonneg_of_forall {l : List ℚ} (h : ∀ q ∈ l, 0 ≤ q) (i : ℕ) :
    0 ≤ l.getD i 0 := by
  rcases lt_or_le i l.length with hi | hi
  · rw [List.getD_eq_get _ _ hi]
    exact h _ (List.get_mem _ _ hi)
  · rw [List.getD_eq_default _ _ hi]

/-- Interpolation against any 21-entry column over the altitude table always
succeeds. -/
lemma interp_total (y : List ℚ) (hy : y.length = 21) (a : ℚ) :
    ∃ v, linear_interpolate a altitude_data y = some v := by
  obtain ⟨i, hadj, h1i, hilen, _, _, _⟩ :=
    adjIndex_spec (x := altitude_data) (by decide) altitude_data_sorted a
  exact ⟨_, linear_interpolate_of_adjIndex altitude_data_sorted
    (by rw [hy, altitude_data_length]) a hadj h1i hilen⟩

/-- Evaluation shape of `get_pressure` once the interpolant is known. -/
lemma get_pressure_eq (a : ℚ) {p : ℚ}
    (hp : linear_interpolate a altitude_data pressure_data = some p) :
    get_pressure a = (bounds_warning a, some ((if p < 0 then 0 else p) * 10 ^ 4)) := by
  unfold get_pressure
  rw [hp]

/-- Evaluation shape of `get_temperature` once the interpolant is known. -/
lemma get_temperature_eq (a : ℚ) {t : ℚ}
    (ht : linear_interpolate a altitude_data temperature_data = some t) :
    get_temperature a = (bounds_warning a, some t) := by
  unfold get_temperature
  rw [ht]

/-- Evaluation shape of `get_density` once the interpolant is known. -/
lemma get_density_eq (a : ℚ) {d : ℚ}
    (hd : linear_interpolate a altitude_data density_data = some d) :
    get_density a = (bounds_warning a, some (if d < 0 then 0 else d)) := by
  unfold get_density
  rw [hd]

/-- Evaluation shape of `get_dynamic_viscocity` once the interpolant is
known. -/
lemma get_dynamic_viscocity_eq (a : ℚ) {v : ℚ}
    (hv : linear_interpolate a altitude_data dynamic_viscosity_data = some v) :
    get_dynamic_viscocity a = (bounds_warning a, some ((if v < 0 then 0 else v) / 10 ^ 5)) := by
  unfold get_dynamic_viscocity
  rw [hv]

/-- Clamping below at zero preserves order. -/
lemma clamp_mono {a b : ℚ} (h : a ≤ b) :
    (if a < 0 then 0 else a) ≤ if b < 0 then 0 else b := by
  rcases lt_or_le a 0 with ha | ha <;> rcases lt_or_le b 0 with hb | hb
  · rw [if_pos ha, if_pos hb]
  · rw [if_pos ha, if_neg (not_lt.mpr hb)]
    exact hb
  · rw [if_neg (not_lt.mpr ha), if_pos hb]
    linarith
  · rw [if_neg (not_lt.mpr ha), if_neg (not_lt.mpr hb)]
    exact h

/-- Clamping below at zero yields a nonnegative value. -/
lemma clamp_nonneg (p : ℚ) : 0 ≤ if p < 0 then 0 else p := by
  split
  · exact le_refl 0
  · exact not_lt.mp (by assumption)

/-- The warning flag fires exactly outside the closed tabulated range. -/
lemma bounds_warning_iff (a : ℚ) :
    bounds_warning a = true ↔ ¬(-1000 ≤ a ∧ a ≤ 80000) := by
  unfold bounds_warning
  have h0 : altitude_data.getD 0 0 = -1000 := by decide
  have h20 : altitude_data.getD (altitude_data.length - 1) 0 = 80000 := by decide
  rw [h0, h20]
  simp only [Bool.or_eq_true, decide_eq_true_eq]
  rw [not_and_or, not_le, not_le]

/-- The facade always assembles the full record from the four accessors. -/
lemma get_standard_atmosphere_eval (a : ℚ) :
    ∃ r, get_standard_atmosphere a = some r ∧
      (get_pressure a).2 = some r.pressure ∧
      (get_temperature a).2 = some r.temperature ∧
      (get_density a).2 = some r.density ∧
      (get_dynamic_viscocity a).2 = some r.dynamic_viscosity ∧
      r.altitude = a := by
  obtain ⟨p, hp⟩ := interp_total pressure_data rfl a
  obtain ⟨t, ht⟩ := interp_total temperature_data rfl a
  obtain ⟨d, hd⟩ := interp_total density_data rfl a
  obtain ⟨v, hv⟩ := interp_total dynamic_viscosity_data rfl a
  have hp2 : (get_pressure a).2 = some ((if p < 0 then 0 else p) * 10 ^ 4) := by
    rw [get_pressure_eq a hp]
  have ht2 : (get_temperature a).2 = some t := by
    rw [get_temperature_eq a ht]
  have hd2 : (get_density a).2 = some (if d < 0 then 0 else d) := by
    rw [get_density_eq a hd]
  have hv2 : (get_dynamic_viscocity a).2 = some ((if v < 0 then 0 else v) / 10 ^ 5) := by
    rw [get_dynamic_viscocity_eq a hv]
  refine ⟨⟨(if p < 0 then 0 else p) * 10 ^ 4, t, (if v < 0 then 0 else v) / 10 ^ 5,
    (if d < 0 then 0 else d), a⟩, ?_, hp2, ht2, hd2, hv2, rfl⟩
  unfold get_standard_atmosphere
  rw [hp2, ht2, hv2, hd2]

/-- Claim C1, counterexample: the altitude table is strictly increasing with
first breakpoint -1000, so by the claim `get_index(-1000, altitude_data)`
would have to return the breakpoint's own index 0 (the smallest `i` with
`data[i] >= -1000`); the code returns index 1, because the scan starts at
index 1. -/
theorem get_index_first_breakpoint_cex :
    altitude_data.Sorted (· < ·) ∧ 2 ≤ altitude_data.length ∧
      altitude_data.getD 0 0 = -1000 ∧
      get_index (-1000) altitude_data = some (some 1) ∧
      get_index (-1000) altitude_data ≠ some (some 0) :=
  ⟨altitude_data_sorted, by decide, by decide, by decide, by decide⟩

/-- Claim C1, amended: for strictly increasing data of length at least 2,
`get_index` returns the sentinel `None` iff the value is strictly greater
than the last element; returns 0 if the value is strictly below the first
element; and otherwise returns the smallest index `i ≥ 1` with
`data[i] >= value` — so a value equal to a breakpoint other than the first
gets that breakpoint's own index, while a value equal to the first
breakpoint gets index 1. -/
theorem get_index_characterization (value : ℚ) (data : List ℚ)
    (hs : data.Sorted (· < ·)) (h2 : 2 ≤ data.length) :
    (get_index value data = some none ↔ data.getD (data.length - 1) 0 < value) ∧
    (value < data.getD 0 0 → get_index value data = some (some 0)) ∧
    (data.getD 0 0 ≤ value → value ≤ data.getD (data.length - 1) 0 →
      ∃ i, get_index value data = some (some i) ∧ 1 ≤ i ∧ i < data.length ∧
        value ≤ data.getD i 0 ∧ ∀ m, 1 ≤ m → m < i → data.getD m 0 < value) := by
  refine ⟨⟨?_, get_index_above h2⟩, get_index_below h2 hs, get_index_mid h2 hs⟩
  intro hsent
  by_contra hc
  push_neg at hc
  rcases lt_or_le value (data.getD 0 0) with hb | hge
  · rw [get_index_below h2 hs hb] at hsent
    simp at hsent
  · obtain ⟨i, hgi, _, _, _, _⟩ := get_index_mid h2 hs hge hc
    rw [hgi] at hsent
    simp at hsent

/-- Claim C1, witness: the amended characterization applied to the altitude
table at value 500. -/
theorem get_index_characterization_witness :
    ∃ i, get_index 500 altitude_data = some (some i) ∧ 1 ≤ i ∧
      i < altitude_data.length ∧ (500 : ℚ) ≤ altitude_data.getD i 0 ∧
      ∀ m, 1 ≤ m → m < i → altitude_data.getD m 0 < 500 :=
  (get_index_characterization 500 altitude_data altitude_data_sorted
    (by decide)).2.2 (by decide) (by decide)

/-- Claim C2: for any target and parallel columns with a strictly increasing
x-column of length at least 2, `linear_interpolate` returns
`y0 + (y1 - y0) / (x1 - x0) * (target_x - x0)` with `(x0, y0)`, `(x1, y1)`
taken at positions `index - 1` and `index`, where `index` is `get_index`'s
result with the sentinel replaced by `length - 1` and index 0 replaced
by 1 (`adjIndex`). -/
theorem linear_interpolate_bracketing (target_x : ℚ) (x_data y_data : List ℚ)
    (hs : x_data.Sorted (· < ·)) (h2 : 2 ≤ x_data.length)
    (hy : y_data.length = x_data.length) :
    ∃ i, adjIndex target_x x_data = some i ∧
      linear_interpolate target_x x_data y_data =
        some (segLine x_data y_data i target_x) := by
  obtain ⟨i, hadj, h1i, hilen, _, _, _⟩ := adjIndex_spec h2 hs target_x
  exact ⟨i, hadj, linear_interpolate_of_adjIndex hs hy target_x hadj h1i hilen⟩

/-- Claim C2, witness: the bracketing formula at target 1/2 over the columns
x = [0, 1], y = [0, 2]. -/
theorem linear_interpolate_bracketing_witness :
    ∃ i, adjIndex (1 / 2) [0, 1] = some i ∧
      linear_interpolate (1 / 2) ([0, 1] : List ℚ) [0, 2] =
        some (segLine [0, 1] [0, 2] i (1 / 2)) :=
  linear_interpolate_bracketing (1 / 2) [0, 1] [0, 2] (by decide) (by decide) rfl

/-- Claim C3: at every one of the 21 tabulated breakpoints each accessor
returns exactly the stored table value after its unit conversion (pressure
times 10^4, viscosity times 10^-5, temperature and density unscaled). -/
theorem exact_table_recovery (k : Fin 21) :
    (get_pressure (altitude_data.getD k 0)).2 =
      some (pressure_data.getD k 0 * 10 ^ 4) ∧
    (get_temperature (altitude_data.getD k 0)).2 =
      some (temperature_data.getD k 0) ∧
    (get_density (altitude_data.getD k 0)).2 =
      some (density_data.getD k 0) ∧
    (get_dynamic_viscocity (altitude_data.getD k 0)).2 =
      some (dynamic_viscosity_data.getD k 0 / 10 ^ 5) := by
  have hk : (k : ℕ) < altitude_data.length := by
    rw [altitude_data_length]
    exact k.isLt
  have hp := interp_at_breakpoint (x := altitude_data) (y := pressure_data)
    (by decide) altitude_data_sorted rfl hk
  have ht := interp_at_breakpoint (x := altitude_data) (y := temperature_data)
    (by decide) altitude_data_sorted rfl hk
  have hd := interp_at_breakpoint (x := altitude_data) (y := density_data)
    (by decide) altitude_data_sorted rfl hk
  have hv := interp_at_breakpoint (x := altitude_data) (y := dynamic_viscosity_data)
    (by decide) altitude_data_sorted rfl hk
  refine ⟨?_, ?_, ?_, ?_⟩
  · rw [get_pressure_eq _ hp,
      if_neg (not_lt.mpr (getD_nonneg_of_forall pressure_data_nonneg _))]
  · rw [get_temperature_eq _ ht]
  · rw [get_density_eq _ hd,
      if_neg (not_lt.mpr (getD_nonneg_of_forall density_data_nonneg _))]
  · rw [get_dynamic_viscocity_eq _ hv,
      if_neg (not_lt.mpr (getD_nonneg_of_forall dynamic_viscosity_data_nonneg _))]

/-- Claim C4: for every altitude, `get_pressure`, `get_density` and
`get_dynamic_viscocity` return a value, and that value is nonnegative. -/
theorem clamping_invariant (a : ℚ) :
    ∃ vp vd vv, (get_pressure a).2 = some vp ∧ 0 ≤ vp ∧
      (get_density a).2 = some vd ∧ 0 ≤ vd ∧
      (get_dynamic_viscocity a).2 = some vv ∧ 0 ≤ vv := by
  obtain ⟨p, hp⟩ := interp_total pressure_data rfl a
  obtain ⟨d, hd⟩ := interp_total density_data rfl a
  obtain ⟨v, hv⟩ := interp_total dynamic_viscosity_data rfl a
  refine ⟨_, _, _, by rw [get_pressure_eq a hp], ?_, by rw [get_density_eq a hd],
    clamp_nonneg d, by rw [get_dynamic_viscocity_eq a hv], ?_⟩
  · exact mul_nonneg (clamp_nonneg p) (by norm_num)
  · exact div_nonneg (clamp_nonneg v) (by norm_num)

/-- Claim C5: each accessor's warning flag is set exactly when the altitude
lies outside the closed tabulated range [-1000, 80000], and in every case the
accessor still computes and returns a value. -/
theorem warning_policy (a : ℚ) :
    ((get_pressure a).1 = true ↔ ¬(-1000 ≤ a ∧ a ≤ 80000)) ∧
    ((get_temperature a).1 = true ↔ ¬(-1000 ≤ a ∧ a ≤ 80000)) ∧
    ((get_density a).1 = true ↔ ¬(-1000 ≤ a ∧ a ≤ 80000)) ∧
    ((get_dynamic_viscocity a).1 = true ↔ ¬(-1000 ≤ a ∧ a ≤ 80000)) ∧
    (∃ vp, (get_pressure a).2 = some vp) ∧
    (∃ vt, (get_temperature a).2 = some vt) ∧
    (∃ vd, (get_density a).2 = some vd) ∧
    (∃ vv, (get_dynamic_viscocity a).2 = some vv) := by
  obtain ⟨p, hp⟩ := interp_total pressure_data rfl a
  obtain ⟨t, ht⟩ := interp_total temperature_data rfl a
  obtain ⟨d, hd⟩ := interp_total density_data rfl a
  obtain ⟨v, hv⟩ := interp_total dynamic_viscosity_data rfl a
  rw [get_pressure_eq a hp, get_temperature_eq a ht, get_density_eq a hd,
    get_dynamic_viscocity_eq a hv]
  exact ⟨bounds_warning_iff a, bounds_warning_iff a, bounds_warning_iff a,
    bounds_warning_iff a, ⟨_, rfl⟩, ⟨_, rfl⟩, ⟨_, rfl⟩, ⟨_, rfl⟩⟩

/-- Claim C6: `get_standard_atmosphere` returns a record whose four quantity
fields equal the four accessors' results at the same altitude and whose
altitude field echoes the input. -/
theorem aggregate_consistency (a : ℚ) :
    ∃ r, get_standard_atmosphere a = some r ∧
      (get_pressure a).2 = some r.pressure ∧
      (get_temperature a).2 = some r.temperature ∧
      (get_density a).2 = some r.density ∧
      (get_dynamic_viscocity a).2 = some r.dynamic_viscosity ∧
      r.altitude = a :=
  get_standard_atmosphere_eval a

/-- Claim C7: for every altitude the locator never errs, interpolation
against each column succeeds, every accessor returns a value, and the facade
assembles a record — no failure anywhere. -/
theorem total_no_failure (a : ℚ) :
    get_index a altitude_data ≠ none ∧
    (linear_interpolate a altitude_data pressure_data).isSome = true ∧
    (linear_interpolate a altitude_data temperature_data).isSome = true ∧
    (linear_interpolate a altitude_data density_data).isSome = true ∧
    (linear_interpolate a altitude_data dynamic_viscosity_data).isSome = true ∧
    (get_pressure a).2.isSome = true ∧
    (get_temperature a).2.isSome = true ∧
    (get_density a).2.isSome = true ∧
    (get_dynamic_viscocity a).2.isSome = true ∧
    (get_standard_atmosphere a).isSome = true := by
  obtain ⟨p, hp⟩ := interp_total pressure_data rfl a
  obtain ⟨t, ht⟩ := interp_total temperature_data rfl a
  obtain ⟨d, hd⟩ := interp_total density_data rfl a
  obtain ⟨v, hv⟩ := interp_total dynamic_viscosity_data rfl a
  obtain ⟨r, hr, _, _, _, _, _⟩ := get_standard_atmosphere_eval a
  refine ⟨?_, by rw [hp]; rfl, by rw [ht]; rfl, by rw [hd]; rfl, by rw [hv]; rfl,
    by rw [get_pressure_eq a hp]; rfl, by rw [get_temperature_eq a ht]; rfl,
    by rw [get_density_eq a hd]; rfl, by rw [get_dynamic_viscocity_eq a hv]; rfl,
    by rw [hr]; rfl⟩
  obtain ⟨i, hadj, _, _, _, _, _⟩ :=
    adjIndex_spec (x := altitude_data) (by decide) altitude_data_sorted a
  intro hn
  unfold adjIndex at hadj
  rw [hn] at hadj
  simp at hadj

/-- Claim C8: concrete scenario values — `get_temperature(500)` is 11.75, the
linear interpolant between 15 at altitude 0 and 8.5 at altitude 1000;
`get_pressure(0)` is 101300 Pa, i.e. 10.13 times 10^4; `get_density(-5000)`
extrapolates from the [-1000, 0] interval to 1.835, strictly above the
density 1.347 stored at -1000 m and not clamped to zero. -/
theorem concrete_scenarios :
    (get_temperature 500).2 = some 11.75 ∧
    (11.75 : ℚ) = 15 + (8.5 - 15) / (1000 - 0) * (500 - 0) ∧
    (get_pressure 0).2 = some 101300 ∧
    (101300 : ℚ) = 10.13 * 10 ^ 4 ∧
    (get_density (-5000)).2 = some 1.835 ∧
    density_data.getD 0 0 = 1.347 ∧ (1.347 : ℚ) < 1.835 ∧ (0 : ℚ) < 1.835 := by
  refine ⟨?_, by norm_num, ?_, by norm_num, ?_, by norm_num [density_data], by norm_num,
    by norm_num⟩
  · norm_num [get_temperature, bounds_warning, linear_interpolate, get_index,
      scanAux, altitude_data, temperature_data]
  · norm_num [get_pressure, bounds_warning, linear_interpolate, get_index,
      scanAux, altitude_data, pressure_data]
  · norm_num [get_density, bounds_warning, linear_interpolate, get_index,
      scanAux, altitude_data, density_data]

/-- Claim C9: the embedded reference table's five columns all have the same
length 21 (hence at least 2) and the altitude column is strictly
increasing. -/
theorem table_invariant :
    altitude_data.length = 21 ∧
    temperature_data.length = altitude_data.length ∧
    pressure_data.length = altitude_data.length ∧
    density_data.length = altitude_data.length ∧
    dynamic_viscosity_data.length = altitude_data.length ∧
    2 ≤ altitude_data.length ∧
    altitude_data.Sorted (· < ·) :=
  ⟨rfl, rfl, rfl, rfl, rfl, by decide, altitude_data_sorted⟩

/-- Claim C10: `get_pressure` and `get_density` are monotonically
non-increasing over all altitudes, including out-of-domain ones: the
tabulated columns are strictly decreasing, each bracketing segment therefore
has negative slope, edge-interval extrapolation reuses those segments, and
the clamp to zero preserves the ordering. -/
theorem pressure_density_antitone (a1 a2 : ℚ) (h : a1 ≤ a2) :
    (∀ v1 v2, (get_pressure a1).2 = some v1 → (get_pressure a2).2 = some v2 →
      v2 ≤ v1) ∧
    (∀ v1 v2, (get_density a1).2 = some v1 → (get_density a2).2 = some v2 →
      v2 ≤ v1) := by
  constructor
  · intro v1 v2 h1 h2
    obtain ⟨p1, hp1⟩ := interp_total pressure_data rfl a1
    obtain ⟨p2, hp2⟩ := interp_total pressure_data rfl a2
    have hmono := interp_antitone (x := altitude_data) (y := pressure_data)
      (by decide) altitude_data_sorted rfl pressure_data_sorted h hp1 hp2
    rw [get_pressure_eq a1 hp1] at h1
    rw [get_pressure_eq a2 hp2] at h2
    have hv1 : ((if p1 < 0 then 0 else p1) * 10 ^ 4 : ℚ) = v1 := Option.some_inj.mp h1
    have hv2 : ((if p2 < 0 then 0 else p2) * 10 ^ 4 : ℚ) = v2 := Option.some_inj.mp h2
    rw [← hv1, ← hv2]
    exact mul_le_mul_of_nonneg_right (clamp_mono hmono) (by norm_num)
  · intro v1 v2 h1 h2
    obtain ⟨d1, hd1⟩ := interp_total density_data rfl a1
    obtain ⟨d2, hd2⟩ := interp_total density_data rfl a2
    have hmono := interp_antitone (x := altitude_data) (y := density_data)
      (by decide) altitude_data_sorted rfl density_data_sorted h hd1 hd2
    rw [get_density_eq a1 hd1] at h1
    rw [get_density_eq a2 hd2] at h2
    have hv1 : (if d1 < 0 then 0 else d1) = v1 := Option.some_inj.mp h1
    have hv2 : (if d2 < 0 then 0 else d2) = v2 := Option.some_inj.mp h2
    rw [← hv1, ← hv2]
    exact clamp_mono hmono

/-- Claim C10, witness: the pressure ordering between altitudes 0 and 1000. -/
theorem pressure_density_antitone_witness :
    (get_pressure 0).2 = some 101300 ∧ (get_pressure 1000).2 = some 89880 ∧
      (89880 : ℚ) ≤ 101300 := by
  have h1 : (get_pressure 0).2 = some 101300 := by
    norm_num [get_pressure, bounds_warning, linear_interpolate, get_index,
      scanAux, altitude_data, pressure_data]
  have h2 : (get_pressure 1000).2 = some 89880 := by
    norm_num [get_pressure, bounds_warning, linear_interpolate, get_index,
      scanAux, altitude_data, pressure_data]
  exact ⟨h1, h2, (pressure_density_antitone 0 1000 (by norm_num)).1
    101300 89880 h1 h2⟩

/-- Claim C3, witness: exact recovery at the first breakpoint, -1000 m. -/
theorem exact_table_recovery_witness :
    (get_pressure (altitude_data.getD ((0 : Fin 21) : ℕ) 0)).2 =
      some (pressure_data.getD ((0 : Fin 21) : ℕ) 0 * 10 ^ 4) ∧
    (get_temperature (altitude_data.getD ((0 : Fin 21) : ℕ) 0)).2 =
      some (temperature_data.getD ((0 : Fin 21) : ℕ) 0) ∧
    (get_density (altitude_data.getD ((0 : Fin 21) : ℕ) 0)).2 =
      some (density_data.getD ((0 : Fin 21) : ℕ) 0) ∧
    (get_dynamic_viscocity (altitude_data.getD ((0 : Fin 21) : ℕ) 0)).2 =
      some (dynamic_viscosity_data.getD ((0 : Fin 21) : ℕ) 0 / 10 ^ 5) :=
  exact_table_recovery 0

/-- Claim C4, witness: nonnegative results at the extreme altitude
1,000,000 m named by the claim. -/
theorem clamping_invariant_witness :
    ∃ vp vd vv, (get_pressure 1000000).2 = some vp ∧ 0 ≤ vp ∧
      (get_density 1000000).2 = some vd ∧ 0 ≤ vd ∧
      (get_dynamic_viscocity 1000000).2 = some vv ∧ 0 ≤ vv :=
  clamping_invariant 1000000

/-- Claim C5, witness: the warning policy at the out-of-bounds altitude
90,000 m. -/
theorem warning_policy_witness :
    ((get_pressure 90000).1 = true ↔ ¬(-1000 ≤ (90000 : ℚ) ∧ (90000 : ℚ) ≤ 80000)) ∧
    ((get_temperature 90000).1 = true ↔ ¬(-1000 ≤ (90000 : ℚ) ∧ (90000 : ℚ) ≤ 80000)) ∧
    ((get_density 90000).1 = true ↔ ¬(-1000 ≤ (90000 : ℚ) ∧ (90000 : ℚ) ≤ 80000)) ∧
    ((get_dynamic_viscocity 90000).1 = true ↔ ¬(-1000 ≤ (90000 : ℚ) ∧ (90000 : ℚ) ≤ 80000)) ∧
    (∃ vp, (get_pressure 90000).2 = some vp) ∧
    (∃ vt, (get_temperature 90000).2 = some vt) ∧
    (∃ vd, (get_density 90000).2 = some vd) ∧
    (∃ vv, (get_dynamic_viscocity 90000).2 = some vv) :=
  warning_policy 90000

/-- Claim C6, witness: the aggregate record at 1259 m, the altitude used by
the module's command-line entry point. -/
theorem aggregate_consistency_witness :
    ∃ r, get_standard_atmosphere 1259 = some r ∧
      (get_pressure 1259).2 = some r.pressure ∧
      (get_temperature 1259).2 = some r.temperature ∧
      (get_density 1259).2 = some r.density ∧
      (get_dynamic_viscocity 1259).2 = some r.dynamic_viscosity ∧
      r.altitude = 1259 :=
  aggregate_consistency 1259

/-- Claim C7, witness: nothing fails at the extreme altitude -1,000,000 m. -/
theorem total_no_failure_witness :
    get_index (-1000000) altitude_data ≠ none ∧
    (linear_interpolate (-1000000) altitude_data pressure_data).isSome = true ∧
    (linear_interpolate (-1000000) altitude_data temperature_data).isSome = true ∧
    (linear_interpolate (-1000000) altitude_data density_data).isSome = true ∧
    (linear_interpolate (-1000000) altitude_data dynamic_viscosity_data).isSome = true ∧
    (get_pressure (-1000000)).2.isSome = true ∧
    (get_temperature (-1000000)).2.isSome = true ∧
    (get_density (-1000000)).2.isSome = true ∧
    (get_dynamic_viscocity (-1000000)).2.isSome = true ∧
    (get_standard_atmosphere (-1000000)).isSome = true :=
  total_no_failure (-1000000)

end StandardAtmosphere
